import Mathlib

/-!
# S.O.L.I.D refresher: a shallow embedding of the five teaching snippets

The C++ snippets under `src/` are embedded as Lean definitions:

* `double` is modelled by `F64`, IEEE 754 binary64 with round-to-nearest,
  ties-to-even, every operation rounded once;
* a statement that may print, write a file or throw is a `Cpp α`, a function
  from the `World` before to the `Outcome` and the `World` after;
* an abstract class is a structure of its virtual methods, a concrete class
  is a value of that structure.

Each snippet file holds two programs (a violation and its refactor) that
reuse class names, so they live in separate namespaces.
-/

/-! ## The type `double` -/

/-- A value of the C++ type `double`: not-a-number, a signed infinity, or the
signed finite value `(-1)^neg * m * 2^e`. -/
inductive F64 where
  | nan
  | inf (neg : Bool)
  | fin (neg : Bool) (m : Nat) (e : Int)
  deriving DecidableEq, Repr

namespace F64

/-- Greedy binary search, highest bit first: with `acc = 0` and `b` bits it
returns the largest `j < 2^b` with `d * 2^j ≤ n`, or `0` when there is none. -/
def expScan (n d : Nat) : Nat → Nat → Nat
  | 0, acc => acc
  | b + 1, acc =>
    if d <<< (acc + 1 <<< b) ≤ n then expScan n d b (acc + 1 <<< b) else expScan n d b acc

/-- Round the magnitude `n / d` to binary64, to nearest with ties to even, and
attach the sign `neg`.  The unit in the last place is `2^p` with
`p = max (⌊log2 (n/d)⌋ - 52) (-1074)`; a mantissa that rounds up to `2^53` is
renormalised, and a result of `2^1024` or more is an infinity. -/
def roundQ (neg : Bool) (n d : Nat) : F64 :=
  let fl : Int := (expScan (n <<< 1022) d 11 0 : Int) - 1022
  let p : Int := fl - 52
  let num := n <<< (-p).toNat
  let den := d <<< p.toNat
  let q := num / den
  let r := num % den
  let m := if den < 2 * r ∨ (2 * r = den ∧ q % 2 = 1) then q + 1 else q
  if m = 1 <<< 53 then (if 971 < p + 1 then inf neg else fin neg (1 <<< 52) (p + 1))
  else (if 971 < p then inf neg else fin neg m p)

/-- Round the exact dyadic magnitude `m * 2^e`. -/
def roundDyadic (neg : Bool) (m : Nat) (e : Int) : F64 :=
  roundQ neg (m <<< e.toNat) (1 <<< (-e).toNat)

/-- The integer `(-1)^neg * m * 2^(e - base)`, for `base ≤ e`. -/
def scaled (neg : Bool) (m : Nat) (e base : Int) : Int :=
  if neg then -((m <<< (e - base).toNat : Nat) : Int) else ((m <<< (e - base).toNat : Nat) : Int)

/-- The product `x * y` of two doubles. -/
def mul : F64 → F64 → F64
  | nan, _ => nan
  | _, nan => nan
  | inf s, inf t => inf (s != t)
  | inf s, fin t m _ => if m = 0 then nan else inf (s != t)
  | fin s m _, inf t => if m = 0 then nan else inf (s != t)
  | fin s m e, fin t k f => roundDyadic (s != t) (m * k) (e + f)

/-- The sum `x + y` of two doubles. -/
def add : F64 → F64 → F64
  | nan, _ => nan
  | _, nan => nan
  | inf s, inf t => if s = t then inf s else nan
  | inf s, fin _ _ _ => inf s
  | fin _ _ _, inf t => inf t
  | fin s m e, fin t k f =>
    let z : Int := scaled s m e (min e f) + scaled t k f (min e f)
    if z = 0 then fin (s && t) 0 (-1074)
    else roundDyadic (decide (z < 0)) z.natAbs (min e f)

/-- The comparison `x == y` of two doubles. -/
def eq : F64 → F64 → Bool
  | nan, _ => false
  | _, nan => false
  | inf s, inf t => s == t
  | inf _, fin _ _ _ => false
  | fin _ _ _, inf _ => false
  | fin s m e, fin t k f => scaled s m e (min e f) == scaled t k f (min e f)

/-- The comparison `x <= y` of two doubles. -/
def le : F64 → F64 → Bool
  | nan, _ => false
  | _, nan => false
  | inf s, inf t => s || !t
  | inf s, fin _ _ _ => s
  | fin _ _ _, inf t => !t
  | fin s m e, fin t k f => decide (scaled s m e (min e f) ≤ scaled t k f (min e f))

/-- A decimal literal `mantissa * 10^(∓exponent)` of the source text, converted
to the nearest double. -/
def ofLiteral (mantissa : Nat) (exponentSign : Bool) (decimalExponent : Nat) : F64 :=
  if exponentSign then roundQ false mantissa (10 ^ decimalExponent)
  else roundQ false (mantissa * 10 ^ decimalExponent) 1

instance : OfScientific F64 := ⟨ofLiteral⟩
instance : Add F64 := ⟨add⟩
instance : Mul F64 := ⟨mul⟩

end F64

/-! ## Statements and their effects -/

/-- The exception classes thrown by the snippets; `std::invalid_argument` is
derived from `std::logic_error`. -/
inductive ExnClass where
  | logic_error
  | invalid_argument
  deriving DecidableEq, Repr

/-- A thrown exception object: its class and the text of `what()`. -/
structure Exn where
  cls : ExnClass
  what : String
  deriving DecidableEq, Repr

/-- What the snippets can observe and change: the text inserted into
`std::cout` so far, and the `(filename, data)` pairs inserted into a
`std::ofstream` that did open on `filename`, oldest first. -/
structure World where
  stdout : String
  files : List (String × String)
  deriving DecidableEq, Repr

/-- How a statement ends: normally with a value, or by an exception that
leaves it. -/
inductive Outcome (α : Type) where
  | ok (a : α)
  | thrown (e : Exn)
  deriving DecidableEq, Repr

/-- A C++ statement or call: from the world before, its outcome and the world
after. -/
def Cpp (α : Type) : Type := World → Outcome α × World

namespace Cpp

/-- Sequencing: the second statement runs in the world the first left, unless
the first threw. -/
def seq {α β : Type} (x : Cpp α) (f : α → Cpp β) : Cpp β := fun w =>
  match x w with
  | (.ok a, w1) => f a w1
  | (.thrown e, w1) => (.thrown e, w1)

instance : Monad Cpp where
  pure a := fun w => (.ok a, w)
  bind := seq

/-- The statement `throw e;`. -/
def raise {α : Type} (e : Exn) : Cpp α := fun w => (.thrown e, w)

/-- The expression `std::cout << s` for a string `s`. -/
def cout (s : String) : Cpp Unit := fun w => (.ok (), { w with stdout := w.stdout ++ s })

/-- The statements `std::ofstream ofs(filename); ofs << data;`.  Whether the
stream opens on a file name is the file system's, taken as the parameter
`canOpen`.  The source never tests the stream: when the open fails the
insertion writes nothing and no exception is thrown. -/
def ofstream (canOpen : String → Bool) (filename data : String) : Cpp Unit := fun w =>
  if canOpen filename then (.ok (), { w with files := w.files ++ [(filename, data)] })
  else (.ok (), w)

/-- A range-based `for` loop over a vector. -/
def forEach {α : Type} : List α → (α → Cpp Unit) → Cpp Unit
  | [], _ => pure ()
  | a :: as, body => seq (body a) (fun _ => forEach as body)

end Cpp

open Cpp

/-- The empty world a program starts in. -/
def World.initial : World := ⟨"", []⟩

/-! ## S: single responsibility (`src/S/code_example.cpp`) -/

namespace SRP.Violation

/-- The class `Report` of the violation example. -/
structure Report where
  content : String
  deriving DecidableEq, Repr

/-- The constructor `Report(data)`. -/
def Report.new (data : String) : Report := ⟨data⟩

/-- The method `formatHTML`: it overwrites `content`; the result is the object
after the call. -/
def Report.formatHTML (self : Report) : Cpp Report :=
  pure { self with content := "<html><body>" ++ self.content ++ "</body></html>" }

/-- The method `generateFile`. -/
def Report.generateFile (canOpen : String → Bool) (self : Report) (filename : String) :
    Cpp Report := do
  ofstream canOpen filename self.content
  pure self

/-- The function `main` of the violation example. -/
def main (canOpen : String → Bool) : Cpp Int := do
  let rpt := Report.new "Quarterly earnings: $1M"
  let rpt ← rpt.formatHTML
  let _ ← rpt.generateFile canOpen "report.html"
  return 0

end SRP.Violation

namespace SRP.Compliant

/-- The static method `HTMLFormatter::format`. -/
def HTMLFormatter.format (raw : String) : String :=
  "<html><body>" ++ raw ++ "</body></html>"

/-- The static method `FileWriter::write`. -/
def FileWriter.write (canOpen : String → Bool) (filename data : String) : Cpp Unit :=
  ofstream canOpen filename data

/-- The class `Report` of the compliant example. -/
structure Report where
  content : String
  deriving DecidableEq, Repr

/-- The constructor `Report(data)`. -/
def Report.new (data : String) : Report := ⟨data⟩

/-- The `const` method `saveAsHTML`; the result is the object after the call. -/
def Report.saveAsHTML (canOpen : String → Bool) (self : Report) (filename : String) :
    Cpp Report := do
  let html := HTMLFormatter.format self.content
  FileWriter.write canOpen filename html
  pure self

/-- The function `main` of the compliant example. -/
def main (canOpen : String → Bool) : Cpp Int := do
  let rpt := Report.new "Quarterly earnings: $1M"
  let _ ← rpt.saveAsHTML canOpen "report.html"
  return 0

end SRP.Compliant

/-! ## O: open/closed (`src/O/code_example.cpp`) -/

namespace OCP

/-- The method `ShippingService::calculateCost` of the violation example; the
class has no data members. -/
def ShippingService.calculateCost (method : String) (weightKg : F64) : Cpp F64 :=
  if method = "ground" then
    pure (5.0 + 1.2 * weightKg)
  else if method = "air" then
    pure (10.0 + 3.5 * weightKg)
  else
    raise ⟨.invalid_argument, "Unknown shipping method"⟩

/-- The abstract class `ShippingCostCalculator`: its one virtual method. -/
structure ShippingCostCalculator where
  calculate : F64 → Cpp F64

/-- The class `GroundShipping`. -/
def GroundShipping : ShippingCostCalculator where
  calculate weightKg := pure (5.0 + 1.2 * weightKg)

/-- The class `AirShipping`. -/
def AirShipping : ShippingCostCalculator where
  calculate weightKg := pure (10.0 + 3.5 * weightKg)

/-- The class `SeaShipping`, local to `mainOCP`. -/
def SeaShipping : ShippingCostCalculator where
  calculate weightKg := pure (3.0 + 0.8 * weightKg)

/-- The class `ShippingServiceOCP`: a reference to the calculator it was
constructed with. -/
structure ShippingServiceOCP where
  calculator : ShippingCostCalculator

/-- The method `ShippingServiceOCP::ship`.  The text that `std::cout << x`
produces for a double `x` is the library's, taken as the parameter `fmt`.  The
operands of `<<` are evaluated left to right. -/
def ShippingServiceOCP.ship (fmt : F64 → String) (self : ShippingServiceOCP)
    (weightKg : F64) : Cpp Unit := do
  cout "Cost: $"
  let cost ← self.calculator.calculate weightKg
  cout (fmt cost)
  cout "\n"

/-- The function `main` of the violation example. -/
def main (fmt : F64 → String) : Cpp Int := do
  cout "Ground: $"
  let g ← ShippingService.calculateCost "ground" 2.5
  cout (fmt g)
  cout "\n"
  cout "Air:    $"
  let a ← ShippingService.calculateCost "air" 2.5
  cout (fmt a)
  cout "\n"
  return 0

/-- The statements of `mainOCP` above its comment `--- Later: add SeaShipping
without touching any existing code ---` (source lines 91 to 97): the program
as it was before the variant was added. -/
def mainOCPBefore (fmt : F64 → String) : Cpp Unit := do
  let ground := GroundShipping
  let svc1 : ShippingServiceOCP := ⟨ground⟩
  svc1.ship fmt 2.5
  let air := AirShipping
  let svc2 : ShippingServiceOCP := ⟨air⟩
  svc2.ship fmt 2.5

/-- The function `mainOCP`. -/
def mainOCP (fmt : F64 → String) : Cpp Int := do
  let ground := GroundShipping
  let svc1 : ShippingServiceOCP := ⟨ground⟩
  svc1.ship fmt 2.5
  let air := AirShipping
  let svc2 : ShippingServiceOCP := ⟨air⟩
  svc2.ship fmt 2.5
  let sea := SeaShipping
  let svc3 : ShippingServiceOCP := ⟨sea⟩
  svc3.ship fmt 2.5
  return 0

end OCP

/-! ## L: Liskov substitution (`src/L/code_exapmple.cpp`) -/

namespace LSP.Violation

/-- The class `Bird` as seen through a `Bird*`: its two virtual methods. -/
structure Bird where
  fly : Cpp Unit
  walk : Cpp Unit

/-- An object of the base class `Bird` itself. -/
def Bird.base : Bird where
  fly := cout "Flying\n"
  walk := cout "Walking\n"

/-- The class `Eagle`: it overrides both methods. -/
def Eagle : Bird where
  fly := cout "Eagle Flying"
  walk := cout "Eagle walking\n"

/-- The class `Penguin`. -/
def Penguin : Bird where
  fly := raise ⟨.logic_error, "Penguins can\x27t fly!"⟩
  walk := cout "Penguin walking\n"

/-- The function `makeAllBirdsFly`. -/
def makeAllBirdsFly (birds : List Bird) : Cpp Unit :=
  forEach birds fun b => b.fly

/-- The function `main` of the violation example. -/
def main : Cpp Int := do
  let eagle := Eagle
  let penguin := Penguin
  let flock := [eagle, penguin]
  makeAllBirdsFly flock
  return 0

end LSP.Violation

namespace LSP.Compliant

/-- The abstract class `Flyable`. -/
structure Flyable where
  fly : Cpp Unit

/-- The class `Bird` of the compliant example: its one virtual method. -/
structure Bird where
  walk : Cpp Unit

/-- An object of the base class `Bird` itself. -/
def Bird.base : Bird where
  walk := cout "Walking\n"

/-- A class derived from both `Bird` and `Flyable`: its two base subobjects. -/
structure FlyingBird where
  toBird : Bird
  toFlyable : Flyable

/-- The class `Eagle`. -/
def Eagle : FlyingBird where
  toBird := { walk := cout "Eagle walking\n" }
  toFlyable := { fly := cout "Eagle flying\n" }

/-- The class `Penguin`: a `Bird` only. -/
def Penguin : Bird where
  walk := cout "Penguin walking\n"

/-- The function `makeFlyingBirdsFly`. -/
def makeFlyingBirdsFly (flock : List Flyable) : Cpp Unit :=
  forEach flock fun f => f.fly

/-- The function `main` of the compliant example. -/
def main : Cpp Int := do
  let eagle := Eagle
  let penguin := Penguin
  let flyers := [eagle.toFlyable]
  makeFlyingBirdsFly flyers
  penguin.walk
  return 0

end LSP.Compliant

/-! ## I: interface segregation (`src/I/code_example.cpp`) -/

namespace ISP

/-- The fat interface `INotifier`: its three virtual methods. -/
structure INotifier where
  sendEmail : String → Cpp Unit
  sendSMS : String → Cpp Unit
  sendPush : String → Cpp Unit

/-- The class `EmailNotifier`. -/
def EmailNotifier : INotifier where
  sendEmail msg := do
    cout "[Email] "
    cout msg
    cout "\n"
  sendSMS _ := raise ⟨.logic_error, "EmailNotifier cannot send SMS"⟩
  sendPush _ := raise ⟨.logic_error, "EmailNotifier cannot send Push notifications"⟩

/-- The class `SMSNotifier`. -/
def SMSNotifier : INotifier where
  sendEmail _ := raise ⟨.logic_error, "SMSNotifier cannot send Email"⟩
  sendSMS msg := do
    cout "[SMS] "
    cout msg
    cout "\n"
  sendPush _ := raise ⟨.logic_error, "SMSNotifier cannot send Push notifications"⟩

/-- The function `notifyUserEmail`. -/
def notifyUserEmail (notifier : INotifier) (msg : String) : Cpp Unit :=
  notifier.sendEmail msg

/-- The function `main` of the violation example. -/
def main : Cpp Int := do
  let email := EmailNotifier
  notifyUserEmail email "Your report is ready."
  return 0

end ISP

/-! ## Facts about `double` arithmetic -/

namespace F64

theorem roundQ_ne_nan (neg : Bool) (n d : Nat) : roundQ neg n d ≠ nan := by
  unfold roundQ
  simp only []
  split_ifs <;> simp

theorem roundDyadic_ne_nan (neg : Bool) (m : Nat) (e : Int) : roundDyadic neg m e ≠ nan :=
  roundQ_ne_nan _ _ _

/-- A product with a finite non-zero factor is a NaN only for a NaN. -/
theorem mul_fin_ne_nan (s : Bool) (m : Nat) (e : Int) (hm : m ≠ 0) (x : F64) (hx : x ≠ nan) :
    mul (fin s m e) x ≠ nan := by
  cases x with
  | nan => exact absurd rfl hx
  | inf t => simp [mul, hm]
  | fin t k f => exact roundDyadic_ne_nan _ _ _

/-- A sum with a finite term is a NaN only for a NaN. -/
theorem add_fin_ne_nan (s : Bool) (m : Nat) (e : Int) (x : F64) (hx : x ≠ nan) :
    add (fin s m e) x ≠ nan := by
  cases x with
  | nan => exact absurd rfl hx
  | inf t => simp [add]
  | fin t k f =>
    simp only [add]
    split_ifs
    · simp
    · exact roundDyadic_ne_nan _ _ _

/-- Every double but a NaN compares equal to itself. -/
theorem eq_self_of_ne_nan (x : F64) (hx : x ≠ nan) : eq x x = true := by
  cases x with
  | nan => exact absurd rfl hx
  | inf t => simp [eq]
  | fin t k f => simp [eq]

/-- A double that `0.0 <= x` holds for is no NaN. -/
theorem ne_nan_of_le (x y : F64) (h : le x y = true) : y ≠ nan := by
  intro hy
  subst hy
  cases x <;> simp [le] at h

/-- The value `a + b * x` for finite `a` and finite non-zero `b` compares equal
to itself unless `x` is a NaN. -/
theorem affine_eq_self (s t : Bool) (m k : Nat) (e f : Int) (hk : k ≠ 0) (x : F64)
    (hx : x ≠ nan) : eq (add (fin s m e) (mul (fin t k f) x)) (add (fin s m e) (mul (fin t k f) x)) = true :=
  eq_self_of_ne_nan _ (add_fin_ne_nan _ _ _ _ (mul_fin_ne_nan _ _ _ hk _ hx))

end F64

/-! ## Checks of the `double` model -/

namespace F64

/-- The search `expScan` from `acc` over `b` bits returns some `j` in
`[acc, acc + 2^b)`; `d * 2^j ≤ n` holds if it held at `acc`, and fails at
`j + 1` unless `j` is the last index of the range. -/
theorem expScan_spec (n d : Nat) (b acc : Nat) :
    acc ≤ expScan n d b acc ∧ expScan n d b acc < acc + 2 ^ b ∧
    (d * 2 ^ acc ≤ n → d * 2 ^ expScan n d b acc ≤ n) ∧
    (expScan n d b acc + 1 < acc + 2 ^ b → n < d * 2 ^ (expScan n d b acc + 1)) := by
  induction b generalizing acc with
  | zero => simp [expScan]
  | succ b ih =>
    simp only [expScan, Nat.shiftLeft_eq, one_mul]
    have hp : 2 ^ (b + 1) = 2 ^ b + 2 ^ b := by ring
    split_ifs with h
    · obtain ⟨h1, h2, h3, h4⟩ := ih (acc + 2 ^ b)
      refine ⟨by omega, by omega, fun _ => h3 h, fun hlt => h4 (by omega)⟩
    · obtain ⟨h1, h2, h3, h4⟩ := ih acc
      refine ⟨h1, by omega, h3, fun hlt => ?_⟩
      by_cases hj : expScan n d b acc + 1 < acc + 2 ^ b
      · exact h4 hj
      · have : expScan n d b acc + 1 = acc + 2 ^ b := by omega
        rw [this]
        omega

/-- The model rounds as binary64 does: `0.1 + 0.2` is not `0.3`, a tie goes to
the even mantissa, the halfway point above the largest finite double overflows,
half the smallest subnormal underflows to zero, and a NaN differs from itself. -/
theorem rounding_checks :
    eq (0.1 + 0.2) 0.3 = false ∧
    eq (0.5 + 0.25) 0.75 = true ∧
    (1.2 : F64) = fin false 5404319552844595 (-52) ∧
    roundQ false ((1 <<< 53) + 1) 1 = fin false (1 <<< 52) 1 ∧
    roundQ false ((1 <<< 53) + 3) 1 = fin false ((1 <<< 52) + 2) 1 ∧
    roundQ false ((1 <<< 1024) - (1 <<< 970) - 1) 1 = fin false ((1 <<< 53) - 1) 971 ∧
    roundQ false ((1 <<< 1024) - (1 <<< 970)) 1 = inf false ∧
    roundQ true 1 (1 <<< 1075) = fin true 0 (-1074) ∧
    roundQ true 3 (1 <<< 1075) = fin true 2 (-1074) ∧
    eq nan nan = false := by
  decide

end F64

/-! ## The claims -/

namespace OCP

/-- A cost `a + b * weightKg`, with literals `a` and `b ≠ 0` that are finite
doubles, compares equal (`==`) to itself for every weight that is no NaN. -/
theorem formula_eq_self (a b : F64) (s t : Bool) (m k : Nat) (e f : Int)
    (ha : a = F64.fin s m e) (hb : b = F64.fin t k f) (hk : k ≠ 0)
    (weightKg : F64) (hw : weightKg ≠ F64.nan) :
    F64.eq (a + b * weightKg) (a + b * weightKg) = true := by
  subst ha hb
  exact F64.affine_eq_self s t m k e f hk weightKg hw

/-- For a NaN weight the cost is a NaN, which `==` does not equate to the
formula: the restriction of the next statement to `0.0 <= weightKg` is needed. -/
theorem formula_ne_self_at_nan (w : World) :
    GroundShipping.calculate F64.nan w = (.ok F64.nan, w) ∧
    F64.eq F64.nan (5.0 + 1.2 * F64.nan) = false ∧
    F64.le 0.0 F64.nan = false := by
  refine ⟨?_, by decide, by decide⟩
  exact congrArg (fun x : F64 => ((Outcome.ok x, w) : Outcome F64 × World))
    (by decide : (5.0 + 1.2 * F64.nan : F64) = F64.nan)

/-- C1. For every non-negative weight (`0.0 <= weightKg`), each policy returns,
without output and without failing, a cost that compares equal (`==`) to its
formula: ground `5.0 + 1.2 * weightKg`, air `10.0 + 3.5 * weightKg`, sea
`3.0 + 0.8 * weightKg`. -/
theorem policies_return_formula (weightKg : F64) (h : F64.le 0.0 weightKg = true) (w : World) :
    (∃ v, GroundShipping.calculate weightKg w = (.ok v, w) ∧
        F64.eq v (5.0 + 1.2 * weightKg) = true) ∧
    (∃ v, AirShipping.calculate weightKg w = (.ok v, w) ∧
        F64.eq v (10.0 + 3.5 * weightKg) = true) ∧
    (∃ v, SeaShipping.calculate weightKg w = (.ok v, w) ∧
        F64.eq v (3.0 + 0.8 * weightKg) = true) := by
  have hw : weightKg ≠ F64.nan := F64.ne_nan_of_le _ _ h
  refine ⟨⟨_, rfl, ?_⟩, ⟨_, rfl, ?_⟩, ⟨_, rfl, ?_⟩⟩
  · exact formula_eq_self 5.0 1.2 false false 5629499534213120 5404319552844595 (-50) (-52)
      (by decide) (by decide) (by decide) weightKg hw
  · exact formula_eq_self 10.0 3.5 false false 5629499534213120 7881299347898368 (-49) (-51)
      (by decide) (by decide) (by decide) weightKg hw
  · exact formula_eq_self 3.0 0.8 false false 6755399441055744 7205759403792794 (-51) (-53)
      (by decide) (by decide) (by decide) weightKg hw

/-- Witness of C1 at the weight `2.5`. -/
theorem policies_return_formula_witness :
    F64.le 0.0 2.5 = true ∧
    ((∃ v, GroundShipping.calculate 2.5 World.initial = (.ok v, World.initial) ∧
        F64.eq v (5.0 + 1.2 * 2.5) = true) ∧
     (∃ v, AirShipping.calculate 2.5 World.initial = (.ok v, World.initial) ∧
        F64.eq v (10.0 + 3.5 * 2.5) = true) ∧
     (∃ v, SeaShipping.calculate 2.5 World.initial = (.ok v, World.initial) ∧
        F64.eq v (3.0 + 0.8 * 2.5) = true)) :=
  ⟨by decide, policies_return_formula 2.5 (by decide) World.initial⟩

end OCP

namespace OCP

/-- C2. For every cost policy `P` honouring the contract of the abstraction at
the weight `W` (the call returns a cost `v` and leaves the world as it was),
the service constructed with `P` and invoked as `ship(W)` does not fail and
changes the world only by appending to `std::cout` the one line `Cost: $`,
the rendering of `v`, newline. -/
theorem ship_reports_policy_cost (fmt : F64 → String) (P : ShippingCostCalculator)
    (W v : F64) (hP : ∀ w, P.calculate W w = (.ok v, w)) (w : World) :
    (ShippingServiceOCP.mk P).ship fmt W w =
      (.ok (), { w with stdout := w.stdout ++ ("Cost: $" ++ fmt v ++ "\n") }) := by
  show Cpp.seq (cout "Cost: $") (fun _ => Cpp.seq (P.calculate W) (fun cost =>
    Cpp.seq (cout (fmt cost)) (fun _ => cout "\n"))) w = _
  simp [Cpp.seq, cout, hP, String.append_assoc]

/-- Witness of C2: the ground policy at the weight `2.5`. -/
theorem ship_reports_policy_cost_witness :
    (∀ w, GroundShipping.calculate 2.5 w = (.ok 8.0, w)) ∧
    (ShippingServiceOCP.mk GroundShipping).ship (fun _ => "8") 2.5 World.initial =
      (.ok (), { World.initial with stdout := World.initial.stdout ++ ("Cost: $" ++ "8" ++ "\n") }) :=
  have h : ∀ w, GroundShipping.calculate 2.5 w = (.ok 8.0, w) := fun w =>
    congrArg (fun x : F64 => ((Outcome.ok x, w) : Outcome F64 × World))
      (by decide : (5.0 + 1.2 * 2.5 : F64) = 8.0)
  ⟨h, ship_reports_policy_cost (fun _ => "8") GroundShipping 2.5 8.0 h World.initial⟩

/-- C3. At the weight `2.5` the three policies return doubles identical to,
and hence comparing equal (`==`) to, `8.0`, `18.75` and `5.0`; the violation
example returns the same `8.0` for `"ground"` and `18.75` for `"air"`. -/
theorem costs_at_2_5 (w : World) :
    (GroundShipping.calculate 2.5 w = (.ok 8.0, w) ∧ F64.eq (5.0 + 1.2 * 2.5) 8.0 = true) ∧
    (AirShipping.calculate 2.5 w = (.ok 18.75, w) ∧ F64.eq (10.0 + 3.5 * 2.5) 18.75 = true) ∧
    (SeaShipping.calculate 2.5 w = (.ok 5.0, w) ∧ F64.eq (3.0 + 0.8 * 2.5) 5.0 = true) ∧
    ShippingService.calculateCost "ground" 2.5 w = (.ok 8.0, w) ∧
    ShippingService.calculateCost "air" 2.5 w = (.ok 18.75, w) := by
  have hg : (5.0 + 1.2 * 2.5 : F64) = 8.0 := by decide
  have ha : (10.0 + 3.5 * 2.5 : F64) = 18.75 := by decide
  have hs : (3.0 + 0.8 * 2.5 : F64) = 5.0 := by decide
  refine ⟨⟨?_, by decide⟩, ⟨?_, by decide⟩, ⟨?_, by decide⟩, ?_, ?_⟩
  · exact congrArg (fun x : F64 => ((Outcome.ok x, w) : Outcome F64 × World)) hg
  · exact congrArg (fun x : F64 => ((Outcome.ok x, w) : Outcome F64 × World)) ha
  · exact congrArg (fun x : F64 => ((Outcome.ok x, w) : Outcome F64 × World)) hs
  · exact congrArg (fun x : F64 => ((Outcome.ok x, w) : Outcome F64 × World)) hg
  · exact congrArg (fun x : F64 => ((Outcome.ok x, w) : Outcome F64 × World)) ha

/-- C4. In the violation example `calculateCost(method, weightKg)` throws if
and only if `method` is neither `"ground"` nor `"air"`, and then what it throws
is `std::invalid_argument("Unknown shipping method")`; for `"ground"` it returns
`5.0 + 1.2 * weightKg` and for `"air"` `10.0 + 3.5 * weightKg`; in every case
the world is left as it was. -/
theorem calculateCost_fails_iff_unknown (method : String) (weightKg : F64) (w : World) :
    ((∃ e, (ShippingService.calculateCost method weightKg w).1 = .thrown e) ↔
        (method ≠ "ground" ∧ method ≠ "air")) ∧
    ((ShippingService.calculateCost method weightKg w).1 =
        .thrown ⟨.invalid_argument, "Unknown shipping method"⟩ ↔
        (method ≠ "ground" ∧ method ≠ "air")) ∧
    ShippingService.calculateCost "ground" weightKg w = (.ok (5.0 + 1.2 * weightKg), w) ∧
    ShippingService.calculateCost "air" weightKg w = (.ok (10.0 + 3.5 * weightKg), w) ∧
    (ShippingService.calculateCost method weightKg w).2 = w := by
  refine ⟨?_, ?_, rfl, rfl, ?_⟩
  · by_cases hg : method = "ground"
    · subst hg
      simp [ShippingService.calculateCost, pure]
    · by_cases ha : method = "air"
      · subst ha
        simp [ShippingService.calculateCost, pure]
      · simp [ShippingService.calculateCost, hg, ha, raise]
  · by_cases hg : method = "ground"
    · subst hg
      simp [ShippingService.calculateCost, pure]
    · by_cases ha : method = "air"
      · subst ha
        simp [ShippingService.calculateCost, pure]
      · simp [ShippingService.calculateCost, hg, ha, raise]
  · by_cases hg : method = "ground"
    · subst hg
      rfl
    · by_cases ha : method = "air"
      · subst ha
        rfl
      · simp [ShippingService.calculateCost, hg, ha, raise]

end OCP

namespace OCP

/-- C5. Each of the three policies is a pure function of the weight: at every
weight there is one cost `v` that the call returns in every world, leaving that
world as it was (no output, no file written, no exception), and two calls in a
row return that same `v` twice. -/
theorem policies_are_pure (weightKg : F64) :
    (∃ v, (∀ w, GroundShipping.calculate weightKg w = (.ok v, w)) ∧
      ∀ w, (do let a ← GroundShipping.calculate weightKg
               let b ← GroundShipping.calculate weightKg
               pure (a, b) : Cpp (F64 × F64)) w = (.ok (v, v), w)) ∧
    (∃ v, (∀ w, AirShipping.calculate weightKg w = (.ok v, w)) ∧
      ∀ w, (do let a ← AirShipping.calculate weightKg
               let b ← AirShipping.calculate weightKg
               pure (a, b) : Cpp (F64 × F64)) w = (.ok (v, v), w)) ∧
    (∃ v, (∀ w, SeaShipping.calculate weightKg w = (.ok v, w)) ∧
      ∀ w, (do let a ← SeaShipping.calculate weightKg
               let b ← SeaShipping.calculate weightKg
               pure (a, b) : Cpp (F64 × F64)) w = (.ok (v, v), w)) :=
  ⟨⟨_, fun _ => rfl, fun _ => rfl⟩, ⟨_, fun _ => rfl, fun _ => rfl⟩,
    ⟨_, fun _ => rfl, fun _ => rfl⟩⟩

/-- C6. Adding the variant `SeaShipping` needs no change to the service or to
the older variants.  The one `ship`, written over the abstraction, reports the
cost of every policy that honours the contract, whichever it is and whenever it
is added; hence it reports the sea, ground and air costs.  The program before
the variant was added prints the ground and the air line; `mainOCP`, with the
variant added, leaves exactly the world of that earlier program plus the sea
line, and the same holds for any other variant `Q` added in its place. -/
theorem sea_extension_needs_no_change (fmt : F64 → String) (w : World) :
    (∀ (P : ShippingCostCalculator) (W v : F64), (∀ u, P.calculate W u = (.ok v, u)) →
      ∀ u, (ShippingServiceOCP.mk P).ship fmt W u =
        (.ok (), { u with stdout := u.stdout ++ ("Cost: $" ++ fmt v ++ "\n") })) ∧
    (∀ W u, (ShippingServiceOCP.mk SeaShipping).ship fmt W u =
      (.ok (), { u with stdout := u.stdout ++ ("Cost: $" ++ fmt (3.0 + 0.8 * W) ++ "\n") })) ∧
    (∀ W u, (ShippingServiceOCP.mk GroundShipping).ship fmt W u =
      (.ok (), { u with stdout := u.stdout ++ ("Cost: $" ++ fmt (5.0 + 1.2 * W) ++ "\n") })) ∧
    (∀ W u, (ShippingServiceOCP.mk AirShipping).ship fmt W u =
      (.ok (), { u with stdout := u.stdout ++ ("Cost: $" ++ fmt (10.0 + 3.5 * W) ++ "\n") })) ∧
    mainOCPBefore fmt w =
      (.ok (), { w with stdout := w.stdout ++ ("Cost: $" ++ fmt 8.0 ++ "\n")
                  ++ ("Cost: $" ++ fmt 18.75 ++ "\n") }) ∧
    mainOCP fmt w =
      (.ok 0, { (mainOCPBefore fmt w).2 with
                  stdout := (mainOCPBefore fmt w).2.stdout ++ ("Cost: $" ++ fmt 5.0 ++ "\n") }) ∧
    (∀ (Q : ShippingCostCalculator) (v : F64), (∀ u, Q.calculate 2.5 u = (.ok v, u)) →
      (do mainOCPBefore fmt
          (ShippingServiceOCP.mk Q).ship fmt 2.5 : Cpp Unit) w =
        (.ok (), { (mainOCPBefore fmt w).2 with
                    stdout := (mainOCPBefore fmt w).2.stdout ++ ("Cost: $" ++ fmt v ++ "\n") })) := by
  have hg : (5.0 + 1.2 * 2.5 : F64) = 8.0 := by decide
  have ha : (10.0 + 3.5 * 2.5 : F64) = 18.75 := by decide
  have hs : (3.0 + 0.8 * 2.5 : F64) = 5.0 := by decide
  have ship_eq : ∀ (P : ShippingCostCalculator) (W v : F64),
      (∀ u, P.calculate W u = (.ok v, u)) → ∀ u,
      (ShippingServiceOCP.mk P).ship fmt W u =
        (.ok (), { u with stdout := u.stdout ++ ("Cost: $" ++ fmt v ++ "\n") }) := by
    intro P W v hP u
    show Cpp.seq (cout "Cost: $") (fun _ => Cpp.seq (P.calculate W) (fun cost =>
      Cpp.seq (cout (fmt cost)) (fun _ => cout "\n"))) u = _
    simp [Cpp.seq, cout, hP, String.append_assoc]
  have sg := fun W => ship_eq GroundShipping W (5.0 + 1.2 * W) (fun _ => rfl)
  have sa := fun W => ship_eq AirShipping W (10.0 + 3.5 * W) (fun _ => rfl)
  have ss := fun W => ship_eq SeaShipping W (3.0 + 0.8 * W) (fun _ => rfl)
  have hb : mainOCPBefore fmt w =
      (.ok (), { w with stdout := w.stdout ++ ("Cost: $" ++ fmt 8.0 ++ "\n")
                  ++ ("Cost: $" ++ fmt 18.75 ++ "\n") }) := by
    show Cpp.seq ((ShippingServiceOCP.mk GroundShipping).ship fmt 2.5) (fun _ =>
      (ShippingServiceOCP.mk AirShipping).ship fmt 2.5) w = _
    simp only [Cpp.seq, sg, sa, hg, ha]
  refine ⟨ship_eq, ss, sg, sa, hb, ?_, ?_⟩
  · show Cpp.seq ((ShippingServiceOCP.mk GroundShipping).ship fmt 2.5) (fun _ =>
      Cpp.seq ((ShippingServiceOCP.mk AirShipping).ship fmt 2.5) (fun _ =>
      Cpp.seq ((ShippingServiceOCP.mk SeaShipping).ship fmt 2.5) (fun _ => pure 0))) w = _
    rw [hb]
    simp only [Cpp.seq, sg, sa, ss, hg, ha, hs]
    rfl
  · intro Q v hQ
    show Cpp.seq (mainOCPBefore fmt) (fun _ => (ShippingServiceOCP.mk Q).ship fmt 2.5) w = _
    simp only [Cpp.seq, hb, ship_eq Q 2.5 v hQ]

/-- Witness of C6: the sea policy honours the contract at the weight `2.5`, so
the unchanged `ship` reports its cost. -/
theorem sea_extension_needs_no_change_witness :
    (∀ u, SeaShipping.calculate 2.5 u = (.ok 5.0, u)) ∧
    (ShippingServiceOCP.mk SeaShipping).ship (fun _ => "5") 2.5 World.initial =
      (.ok (), { World.initial with
                  stdout := World.initial.stdout ++ ("Cost: $" ++ "5" ++ "\n") }) :=
  have h : ∀ u, SeaShipping.calculate 2.5 u = (.ok 5.0, u) := fun u =>
    congrArg (fun x : F64 => ((Outcome.ok x, u) : Outcome F64 × World))
      (by decide : (3.0 + 0.8 * 2.5 : F64) = 5.0)
  ⟨h, (sea_extension_needs_no_change (fun _ => "5") World.initial).1
    SeaShipping 2.5 5.0 h World.initial⟩

end OCP

namespace LSP

/-- C7 (what the code does). The violation example, run on the flock
`[Eagle, Penguin]`, inserts `Eagle Flying` without a newline into `std::cout`
and then ends by the exception `std::logic_error("Penguins can't fly!")`: the
text printed is not the line `Flying` of the output comment in the source. -/
theorem violation_main_output (w : World) :
    Violation.main w =
      (.thrown ⟨.logic_error, "Penguins can\x27t fly!"⟩,
        { w with stdout := w.stdout ++ "Eagle Flying" }) ∧
    (Violation.main World.initial).2.stdout = "Eagle Flying" ∧
    (Violation.main World.initial).2.stdout ≠ "Flying\n" :=
  ⟨rfl, by decide, by decide⟩

/-- C8 (what the code does). The compliant example prints the two lines
`Eagle flying` and `Penguin walking` and returns `0`; the line `Eagle walking`
of the output comment in the source is not printed, since `main` never calls
`eagle.walk()`. -/
theorem compliant_main_output (w : World) :
    Compliant.main w =
      (.ok 0, { w with stdout := w.stdout ++ "Eagle flying\n" ++ "Penguin walking\n" }) ∧
    (Compliant.main World.initial).2.stdout = "Eagle flying\nPenguin walking\n" ∧
    (Compliant.main World.initial).2.stdout ≠ "Eagle flying\nEagle walking\nPenguin walking\n" :=
  ⟨rfl, by decide, by decide⟩

end LSP

namespace ISP

/-- C9. In the violation example, for every message: the four operations that
are not the notifier's own channel (`EmailNotifier.sendSMS`, `.sendPush`,
`SMSNotifier.sendEmail`, `.sendPush`) throw a `std::logic_error` and print
nothing; `EmailNotifier.sendEmail(msg)` and `SMSNotifier.sendSMS(msg)` do not
throw and print `[Email] ` resp. `[SMS] `, then `msg`, then a newline; so
`notifyUserEmail` throws on an `SMSNotifier` and succeeds on an
`EmailNotifier`. -/
theorem fat_interface_fails_off_channel (msg : String) (w : World) :
    EmailNotifier.sendSMS msg w =
      (.thrown ⟨.logic_error, "EmailNotifier cannot send SMS"⟩, w) ∧
    EmailNotifier.sendPush msg w =
      (.thrown ⟨.logic_error, "EmailNotifier cannot send Push notifications"⟩, w) ∧
    SMSNotifier.sendEmail msg w =
      (.thrown ⟨.logic_error, "SMSNotifier cannot send Email"⟩, w) ∧
    SMSNotifier.sendPush msg w =
      (.thrown ⟨.logic_error, "SMSNotifier cannot send Push notifications"⟩, w) ∧
    EmailNotifier.sendEmail msg w =
      (.ok (), { w with stdout := w.stdout ++ ("[Email] " ++ msg ++ "\n") }) ∧
    SMSNotifier.sendSMS msg w =
      (.ok (), { w with stdout := w.stdout ++ ("[SMS] " ++ msg ++ "\n") }) ∧
    notifyUserEmail SMSNotifier msg w =
      (.thrown ⟨.logic_error, "SMSNotifier cannot send Email"⟩, w) ∧
    notifyUserEmail EmailNotifier msg w =
      (.ok (), { w with stdout := w.stdout ++ ("[Email] " ++ msg ++ "\n") }) := by
  have he : EmailNotifier.sendEmail msg w =
      (.ok (), { w with stdout := w.stdout ++ ("[Email] " ++ msg ++ "\n") }) := by
    show Cpp.seq (cout "[Email] ") (fun _ => Cpp.seq (cout msg) (fun _ => cout "\n")) w = _
    simp [Cpp.seq, cout, String.append_assoc]
  have hs : SMSNotifier.sendSMS msg w =
      (.ok (), { w with stdout := w.stdout ++ ("[SMS] " ++ msg ++ "\n") }) := by
    show Cpp.seq (cout "[SMS] ") (fun _ => Cpp.seq (cout msg) (fun _ => cout "\n")) w = _
    simp [Cpp.seq, cout, String.append_assoc]
  exact ⟨rfl, rfl, rfl, rfl, he, hs, rfl, he⟩

end ISP

namespace SRP

/-- C10 as stated fails where the stream does not open.  In a file system
that opens every name but the empty one, `Report("x").saveAsHTML("")` and the
violation sequence both end normally and write nothing, so the content
`<html><body>x</body></html>` is not written. -/
theorem refactor_writes_nothing_on_failed_open :
    (Compliant.Report.new "x").saveAsHTML (fun name => name != "") "" World.initial =
      (.ok (Compliant.Report.new "x"), World.initial) ∧
    (do let r ← (Violation.Report.new "x").formatHTML
        r.generateFile (fun name => name != "") "" : Cpp Violation.Report) World.initial =
      (.ok ⟨"<html><body>x</body></html>"⟩, World.initial) ∧
    ((Compliant.Report.new "x").saveAsHTML (fun name => name != "") "" World.initial).2.files
      ≠ World.initial.files ++ [("", "<html><body>x</body></html>")] := by
  decide

/-- C10, amended. For every data string and file name,
`Report(data).saveAsHTML(filename)` of the compliant example and `formatHTML()`
followed by `generateFile(filename)` of the violation example end normally and
leave the same world: when the stream opens on `filename` both write the
content `<html><body>` + data + `</body></html>` to that file, and when it does
not, neither writes anything.  `saveAsHTML` leaves the report as it was, so
saving twice writes that same content both times. -/
theorem refactor_writes_same_file (canOpen : String → Bool) (data filename : String)
    (w : World) :
    (Compliant.Report.new data).saveAsHTML canOpen filename w =
      (.ok (Compliant.Report.new data),
        if canOpen filename then
          { w with files := w.files ++ [(filename, "<html><body>" ++ data ++ "</body></html>")] }
        else w) ∧
    (do let r ← (Violation.Report.new data).formatHTML
        r.generateFile canOpen filename : Cpp Violation.Report) w =
      (.ok ⟨"<html><body>" ++ data ++ "</body></html>"⟩,
        if canOpen filename then
          { w with files := w.files ++ [(filename, "<html><body>" ++ data ++ "</body></html>")] }
        else w) ∧
    ((Compliant.Report.new data).saveAsHTML canOpen filename w).2 =
      ((do let r ← (Violation.Report.new data).formatHTML
           r.generateFile canOpen filename : Cpp Violation.Report) w).2 ∧
    (do let r ← (Compliant.Report.new data).saveAsHTML canOpen filename
        r.saveAsHTML canOpen filename : Cpp Compliant.Report) w =
      (.ok (Compliant.Report.new data),
        if canOpen filename then
          { w with files := w.files ++ [(filename, "<html><body>" ++ data ++ "</body></html>"),
                                        (filename, "<html><body>" ++ data ++ "</body></html>")] }
        else w) := by
  have hc : ∀ u, (Compliant.Report.new data).saveAsHTML canOpen filename u =
      (.ok (Compliant.Report.new data),
        if canOpen filename then
          { u with files := u.files ++ [(filename, "<html><body>" ++ data ++ "</body></html>")] }
        else u) := by
    intro u
    show Cpp.seq (ofstream canOpen filename ("<html><body>" ++ data ++ "</body></html>"))
      (fun _ => pure (Compliant.Report.new data)) u = _
    cases h : canOpen filename <;> simp [Cpp.seq, ofstream, h, pure]
  have hv : (do let r ← (Violation.Report.new data).formatHTML
                r.generateFile canOpen filename : Cpp Violation.Report) w =
      (.ok ⟨"<html><body>" ++ data ++ "</body></html>"⟩,
        if canOpen filename then
          { w with files := w.files ++ [(filename, "<html><body>" ++ data ++ "</body></html>")] }
        else w) := by
    show Cpp.seq (ofstream canOpen filename ("<html><body>" ++ data ++ "</body></html>"))
      (fun _ => pure (⟨"<html><body>" ++ data ++ "</body></html>"⟩ : Violation.Report)) w = _
    cases h : canOpen filename <;> simp [Cpp.seq, ofstream, h, pure]
  refine ⟨hc w, hv, by rw [hc w, hv], ?_⟩
  show Cpp.seq ((Compliant.Report.new data).saveAsHTML canOpen filename)
    (fun r => r.saveAsHTML canOpen filename) w = _
  simp only [Cpp.seq, hc]
  cases h : canOpen filename <;> simp

end SRP
